import Mathlib

/-!
Verification of the chat view component (`src/components/chat.rs`).

The development shallowly embeds the component's data model and transition
logic:

* `Json`, `Json.parse` — a model of the JSON text format used by
  `serde_json::from_str` / `serde_json::to_string` (objects, arrays,
  strings with escapes, numbers kept as lexemes, booleans, null).
* `MsgTypes`, `WebSocketMessage`, `MessageData`, `UserProfile` — the wire
  and view data types of the source, with serde's renaming conventions
  (`rename_all = "lowercase"` on the tag, `rename_all = "camelCase"` on
  the envelope) baked into the codec.
* `Chat.create`, `Chat.update` — the component's `create` and `update`
  functions.  DOM access is made explicit: the chat input element's value
  is passed in and returned, outbound websocket sends are collected in a
  list, and the `bool` returned by yew's `update` (whether to re-render)
  is the `render` field.  `Chat.update` returns an `Option`: `none`
  models the `.unwrap()` panic on an undecodable inbound envelope, which
  aborts the handler before any state mutation.
* `resolveSender`, `renderMessageBody` — the two interesting pieces of
  the render projection (`view`): sender lookup with fallback, and the
  `.gif` suffix branch.
-/

/-! ## JSON values and parsing (model of serde_json) -/

/-- A JSON value.  Numbers are kept as their source lexeme: the component
never consumes numeric payloads, only their well-formedness matters. -/
inductive Json where
  | null
  | bool (b : Bool)
  | num (lit : String)
  | str (s : String)
  | arr (items : List Json)
  | obj (fields : List (String × Json))

/-- JSON insignificant whitespace. -/
def jsonWs (c : Char) : Bool :=
  c = ' ' || c = '\t' || c = '\n' || c = '\r'

/-- Drop leading JSON whitespace. -/
def skipWsChars : List Char → List Char
  | [] => []
  | c :: cs => if jsonWs c then skipWsChars cs else c :: cs

/-- Value of a hexadecimal digit. -/
def hexDigitVal (c : Char) : Option Nat :=
  if '0' ≤ c ∧ c ≤ '9' then some (c.toNat - '0'.toNat)
  else if 'a' ≤ c ∧ c ≤ 'f' then some (c.toNat - 'a'.toNat + 10)
  else if 'A' ≤ c ∧ c ≤ 'F' then some (c.toNat - 'A'.toNat + 10)
  else none

/-- Parse the remainder of a JSON string literal (the opening quote is
already consumed), handling the escape sequences JSON admits; unescaped
control characters are rejected, as serde_json rejects them. -/
def parseStringChars (acc : List Char) : List Char → Option (String × List Char)
  | [] => none
  | '"' :: rest => some (String.mk acc.reverse, rest)
  | '\\' :: esc =>
    match esc with
    | '"' :: rest => parseStringChars ('"' :: acc) rest
    | '\\' :: rest => parseStringChars ('\\' :: acc) rest
    | '/' :: rest => parseStringChars ('/' :: acc) rest
    | 'b' :: rest => parseStringChars (Char.ofNat 8 :: acc) rest
    | 'f' :: rest => parseStringChars (Char.ofNat 12 :: acc) rest
    | 'n' :: rest => parseStringChars ('\n' :: acc) rest
    | 'r' :: rest => parseStringChars ('\r' :: acc) rest
    | 't' :: rest => parseStringChars ('\t' :: acc) rest
    | 'u' :: h1 :: h2 :: h3 :: h4 :: rest =>
      match hexDigitVal h1, hexDigitVal h2, hexDigitVal h3, hexDigitVal h4 with
      | some a, some b, some c, some d =>
        parseStringChars (Char.ofNat (((a * 16 + b) * 16 + c) * 16 + d) :: acc) rest
      | _, _, _, _ => none
    | _ => none
  | c :: rest =>
    if c.toNat < 32 then none else parseStringChars (c :: acc) rest

/-- Take a maximal run of decimal digits. -/
def takeDigits : List Char → List Char × List Char
  | [] => ([], [])
  | c :: cs =>
    if c.isDigit then
      let (d, r) := takeDigits cs
      (c :: d, r)
    else ([], c :: cs)

/-- Parse the exponent tail of a JSON number lexeme; `frac` is the
fraction part already read. -/
def parseExpTail (frac : List Char) (s : List Char) : Option (List Char × List Char) :=
  match s with
  | e :: r =>
    if e = 'e' ∨ e = 'E' then
      let (sgn, r1) :=
        match r with
        | '+' :: r2 => (['+'], r2)
        | '-' :: r2 => (['-'], r2)
        | _ => ([], r)
      match takeDigits r1 with
      | ([], _) => none
      | (ds, r2) => some (frac ++ e :: sgn ++ ds, r2)
    else some (frac, s)
  | [] => some (frac, s)

/-- Parse the fraction-and-exponent tail of a JSON number lexeme; a
decimal point with no following digit is rejected. -/
def parseNumTail (s : List Char) : Option (List Char × List Char) :=
  match s with
  | '.' :: r =>
    (match takeDigits r with
     | ([], _) => none
     | (ds, r1) => parseExpTail ('.' :: ds) r1)
  | _ => parseExpTail [] s

/-- Parse a JSON number lexeme (sign, integer part without leading
zeros, optional fraction and exponent). -/
def parseNumberLex (s : List Char) : Option (String × List Char) :=
  let (sgn, s1) := match s with | '-' :: r => (['-'], r) | _ => ([], s)
  match s1 with
  | '0' :: r =>
    (parseNumTail r).map fun (tail, rest) => (String.mk (sgn ++ '0' :: tail), rest)
  | c :: _ =>
    if c.isDigit then
      match takeDigits s1 with
      | (ds, r) =>
        (parseNumTail r).map fun (tail, rest) => (String.mk (sgn ++ ds ++ tail), rest)
    else none
  | [] => none

mutual

/-- Parse one JSON value; `fuel` bounds the nesting depth. -/
def parseValueF : Nat → List Char → Option (Json × List Char)
  | 0, _ => none
  | Nat.succ fuel, s =>
    match skipWsChars s with
    | 'n' :: 'u' :: 'l' :: 'l' :: r => some (.null, r)
    | 't' :: 'r' :: 'u' :: 'e' :: r => some (.bool true, r)
    | 'f' :: 'a' :: 'l' :: 's' :: 'e' :: r => some (.bool false, r)
    | '"' :: r => (parseStringChars [] r).map fun (str, r1) => (.str str, r1)
    | '[' :: r =>
      (match skipWsChars r with
       | ']' :: r1 => some (.arr [], r1)
       | r1 => (parseItemsF fuel r1).map fun (vs, r2) => (.arr vs, r2))
    | c :: r =>
      if c = Char.ofNat 123 then
        match skipWsChars r with
        | d :: r1 =>
          if d = Char.ofNat 125 then some (.obj [], r1)
          else (parseFieldsF fuel (d :: r1)).map fun (fs, r2) => (.obj fs, r2)
        | [] => none
      else parseNumberLex (c :: r) |>.map fun (lit, r1) => (.num lit, r1)
    | [] => none

/-- Parse the comma-separated items of a non-empty JSON array, consuming
the closing bracket. -/
def parseItemsF : Nat → List Char → Option (List Json × List Char)
  | 0, _ => none
  | Nat.succ fuel, s =>
    (parseValueF fuel s).bind fun (v, r) =>
      match skipWsChars r with
      | ',' :: r1 => (parseItemsF fuel r1).map fun (vs, r2) => (v :: vs, r2)
      | ']' :: r1 => some ([v], r1)
      | _ => none

/-- Parse the comma-separated members of a non-empty JSON object,
consuming the closing brace. -/
def parseFieldsF : Nat → List Char → Option (List (String × Json) × List Char)
  | 0, _ => none
  | Nat.succ fuel, s =>
    match skipWsChars s with
    | '"' :: r =>
      (parseStringChars [] r).bind fun (key, r1) =>
        match skipWsChars r1 with
        | ':' :: r2 =>
          (parseValueF fuel r2).bind fun (v, r3) =>
            match skipWsChars r3 with
            | ',' :: r4 => (parseFieldsF fuel r4).map fun (fs, r5) => ((key, v) :: fs, r5)
            | d :: r4 =>
              if d = Char.ofNat 125 then some ([(key, v)], r4) else none
            | [] => none
        | _ => none
    | _ => none

end

/-- Parse a complete JSON document; fails when the text is not a single
JSON value with only trailing whitespace. -/
def Json.parse (s : String) : Option Json :=
  match parseValueF (s.length + 1) s.data with
  | some (v, rest) => if (skipWsChars rest).isEmpty then some v else none
  | none => none

/-! ## Wire and view data types (`chat.rs`) -/

/-- The tag of a wire envelope (`enum MsgTypes`, serde
`rename_all = "lowercase"`). -/
inductive MsgTypes where
  | Users
  | Register
  | Message
  deriving Repr, DecidableEq

/-- The wire envelope (`struct WebSocketMessage`, serde
`rename_all = "camelCase"`); `Option` fields decode from an absent or
`null` member and encode as `null` when `none`. -/
structure WebSocketMessage where
  message_type : MsgTypes
  data_array : Option (List String)
  data : Option String
  deriving Repr, DecidableEq

/-- One chat line as delivered inside a `Message` envelope's payload
(`struct MessageData`). -/
structure MessageData where
  «from» : String
  message : String
  deriving Repr, DecidableEq

/-- A sidebar profile (`struct UserProfile`). -/
structure UserProfile where
  name : String
  avatar : String
  deriving Repr, DecidableEq

/-- The component's UI state (the `users`, `messages` and `is_typing`
fields of `struct Chat`; the DOM node ref and service handles are
modelled separately). -/
structure ChatState where
  users : List UserProfile
  messages : List MessageData
  is_typing : Bool
  deriving Repr, DecidableEq

/-- The component's runtime messages (`enum Msg`). -/
inductive Msg where
  | HandleMsg (raw : String)
  | SubmitMessage
  | TypingChanged (val : String)

/-! ## Codec (model of the serde derives on the wire types) -/

/-- Lowercase hexadecimal digit. -/
def hexDigitChar (n : Nat) : Char :=
  if n < 10 then Char.ofNat ('0'.toNat + n) else Char.ofNat ('a'.toNat + n - 10)

/-- Escape one character the way `serde_json` does when serializing a
string: quote, backslash and control characters are escaped, everything
else is emitted verbatim. -/
def escapeJsonChar (c : Char) : String :=
  if c = '"' then "\\\""
  else if c = '\\' then "\\\\"
  else if c = Char.ofNat 8 then "\\b"
  else if c = '\t' then "\\t"
  else if c = '\n' then "\\n"
  else if c = Char.ofNat 12 then "\\f"
  else if c = '\r' then "\\r"
  else if c.toNat < 32 then
    String.mk ['\\', 'u', '0', '0', hexDigitChar (c.toNat / 16), hexDigitChar (c.toNat % 16)]
  else String.singleton c

/-- Serialize a string as a quoted JSON string literal. -/
def quoteJson (s : String) : String :=
  "\"" ++ String.join (s.data.map escapeJsonChar) ++ "\""

/-- The serde serialization of the envelope tag. -/
def MsgTypes.toJsonStr : MsgTypes → String
  | .Users => "users"
  | .Register => "register"
  | .Message => "message"

/-- The serde deserialization of the envelope tag; any other string is
an unknown-variant error. -/
def MsgTypes.fromJsonStr : String → Option MsgTypes
  | "users" => some .Users
  | "register" => some .Register
  | "message" => some .Message
  | _ => none

/-- Serialize a JSON array of strings. -/
def encodeStringArray (xs : List String) : String :=
  "[" ++ String.intercalate "," (xs.map quoteJson) ++ "]"

/-- Model of `serde_json::to_string` on `WebSocketMessage`: members in
field-declaration order, `None` serialized as `null`, no extra
whitespace. -/
def encodeWS (m : WebSocketMessage) : String :=
  "\x7b\"messageType\":" ++ quoteJson m.message_type.toJsonStr ++
  ",\"dataArray\":" ++
    (match m.data_array with
     | none => "null"
     | some xs => encodeStringArray xs) ++
  ",\"data\":" ++
    (match m.data with
     | none => "null"
     | some s => quoteJson s) ++
  "\x7d"

/-- View a JSON value as an object's field list. -/
def jsonFields : Json → Option (List (String × Json))
  | .obj fs => some fs
  | _ => none

/-- View a JSON value as a string. -/
def jsonAsString : Json → Option String
  | .str s => some s
  | _ => none

/-- Decode an `Option<String>` serde field: absent or `null` is `none`,
a string is `some`, any other value is a type error. -/
def decodeOptString (fs : List (String × Json)) (key : String) : Option (Option String) :=
  match fs.lookup key with
  | none => some none
  | some .null => some none
  | some (.str s) => some (some s)
  | some _ => none

/-- Decode a JSON array all of whose items must be strings. -/
def decodeStringItems : List Json → Option (List String)
  | [] => some []
  | .str s :: js => (decodeStringItems js).map fun ss => s :: ss
  | _ :: _ => none

/-- Decode an `Option<Vec<String>>` serde field: absent or `null` is
`none`, a string array is `some`, any other value is a type error. -/
def decodeOptStringArray (fs : List (String × Json)) (key : String) :
    Option (Option (List String)) :=
  match fs.lookup key with
  | none => some none
  | some .null => some none
  | some (.arr js) => (decodeStringItems js).map some
  | some _ => none

/-- Model of the serde derive `Deserialize for WebSocketMessage` on a
parsed JSON value: requires an object with a known `messageType` tag;
`dataArray` and `data` are optional; unknown members are ignored. -/
def WebSocketMessage.fromJson (j : Json) : Option WebSocketMessage :=
  (jsonFields j).bind fun fs =>
  ((fs.lookup "messageType").bind jsonAsString).bind fun tag =>
  (MsgTypes.fromJsonStr tag).bind fun mt =>
  (decodeOptStringArray fs "dataArray").bind fun da =>
  (decodeOptString fs "data").map fun d =>
  ⟨mt, da, d⟩

/-- Model of `serde_json::from_str::<WebSocketMessage>`. -/
def decodeWS (raw : String) : Option WebSocketMessage :=
  (Json.parse raw).bind WebSocketMessage.fromJson

/-- Model of the serde derive `Deserialize for MessageData`: requires an
object with string members `from` and `message`. -/
def MessageData.fromJson (j : Json) : Option MessageData :=
  (jsonFields j).bind fun fs =>
  ((fs.lookup "from").bind jsonAsString).bind fun f =>
  ((fs.lookup "message").bind jsonAsString).map fun msg =>
  ⟨f, msg⟩

/-- Model of `serde_json::from_str::<MessageData>`. -/
def messageDataFromStr (s : String) : Option MessageData :=
  (Json.parse s).bind MessageData.fromJson

/-! ## Models of the Rust string primitives the component uses -/

/-- Model of Rust `str::trim`: drop whitespace from both ends.  (Lean's
`Char.isWhitespace` covers the ASCII whitespace; Rust trims full Unicode
`White_Space`, which differs only on exotic characters the claims never
touch.) -/
def rustTrim (s : String) : String :=
  String.mk (((s.data.dropWhile Char.isWhitespace).reverse.dropWhile
    Char.isWhitespace).reverse)

/-- Model of Rust `str::ends_with` on a literal suffix. -/
def rustEndsWith (s suffix : String) : Bool :=
  suffix.data.isSuffixOf s.data

/-! ## The component's transition functions -/

/-- The avatar URL built for a roster name (the `format!` call in the
`Users` branch of `update`). -/
def avatarUrl (u : String) : String :=
  "https://avatars.dicebear.com/api/adventurer-neutral/" ++ u ++ ".svg"

/-- The branch of `Chat::update` on a decoded inbound envelope: returns
the new state and the re-render flag (`update`'s `bool` result).
`Users` replaces the roster (absent `dataArray` via `unwrap_or_default`
becomes the empty list) and returns `true`; `Message` appends the
payload when it parses, drops it otherwise, and returns `true` either
way; the remaining tag (`Register`) falls to the `_ => false` arm. -/
def applyWsMessage (st : ChatState) (m : WebSocketMessage) : ChatState × Bool :=
  match m.message_type with
  | .Users =>
    ({ st with
        users := (m.data_array.getD []).map fun u => ⟨u, avatarUrl u⟩ }, true)
  | .Message =>
    (match m.data with
     | some data =>
       match messageDataFromStr data with
       | some message_data => { st with messages := st.messages ++ [message_data] }
       | none => st
     | none => st, true)
  | .Register => (st, false)

/-- The outcome of one `Chat::update` step with the DOM made explicit:
the new UI state, the chat input element's value, the texts handed to
`wss.tx.try_send` during the step (in order), and the returned
re-render flag. -/
structure UpdateResult where
  state : ChatState
  input : String
  sent : List String
  render : Bool
  deriving Repr, DecidableEq

/-- Model of `Chat::update`.  `input` is the current value of the chat
input element (assumed present, as it is whenever the view is mounted).
The result is `none` exactly when the handler panics: `HandleMsg` calls
`serde_json::from_str(..).unwrap()`, so an undecodable envelope aborts
the handler before any state mutation. -/
def Chat.update (st : ChatState) (input : String) : Msg → Option UpdateResult
  | .HandleMsg raw =>
    (decodeWS raw).map fun m =>
      let r := applyWsMessage st m
      ⟨r.1, input, [], r.2⟩
  | .SubmitMessage =>
    if (rustTrim input).isEmpty then
      some ⟨st, input, [], false⟩
    else
      some ⟨{ st with is_typing := false }, "",
        [encodeWS ⟨.Message, none, some input⟩], true⟩
  | .TypingChanged val =>
    let currently_typing := !(rustTrim val).isEmpty
    if st.is_typing != currently_typing then
      some ⟨{ st with is_typing := currently_typing }, input, [], true⟩
    else
      some ⟨st, input, [], false⟩

/-- Model of `Chat::create` for a local user name: the initial state and
the texts sent on the websocket during creation (the `Register`
envelope; `let _ = .. try_send(..)` ignores the send result). -/
def Chat.create (username : String) : ChatState × List String :=
  (⟨[], [], false⟩, [encodeWS ⟨.Register, none, some username⟩])

/-! ## Render projection (the claim-relevant parts of `Chat::view`) -/

/-- Sender lookup in `view`: the first roster entry whose name equals
the message's sender, or a fallback profile with empty avatar. -/
def resolveSender (users : List UserProfile) (m : MessageData) : UserProfile :=
  match users.find? fun u => u.name == m.«from» with
  | some u => u
  | none => ⟨m.«from», ""⟩

/-- How a message body is rendered: as an image element or as plain
text. -/
inductive RenderedContent where
  | image (src : String)
  | text (t : String)
  deriving Repr, DecidableEq

/-- The message-body branch of `view`: an image element with the text as
source when the text ends with `.gif`, plain text otherwise. -/
def renderMessageBody (m : MessageData) : RenderedContent :=
  if rustEndsWith m.message ".gif" then .image m.message else .text m.message

/-! ## Claims -/

/-- Claim C2: applying an inbound `Users` envelope with names `N` wholly
replaces the `users` roster (regardless of its previous contents) with
one profile per name, in order, whose avatar is the fixed dicebear
template with the name substituted verbatim; it triggers a re-render and
leaves `messages` and `is_typing` untouched. -/
theorem users_envelope_replaces_roster (st : ChatState) (N : List String) (d : Option String) :
    (applyWsMessage st ⟨.Users, some N, d⟩).2 = true ∧
    (applyWsMessage st ⟨.Users, some N, d⟩).1.users =
      N.map (fun n => UserProfile.mk n
        ("https://avatars.dicebear.com/api/adventurer-neutral/" ++ n ++ ".svg")) ∧
    (applyWsMessage st ⟨.Users, some N, d⟩).1.users.length = N.length ∧
    (∀ i : Nat,
      ((applyWsMessage st ⟨.Users, some N, d⟩).1.users[i]?).map UserProfile.name = N[i]?) ∧
    (applyWsMessage st ⟨.Users, some N, d⟩).1.messages = st.messages ∧
    (applyWsMessage st ⟨.Users, some N, d⟩).1.is_typing = st.is_typing := by
  refine ⟨rfl, rfl, ?_, ?_, rfl, rfl⟩
  · simp [applyWsMessage]
  · intro i
    rcases hN : N[i]? with _ | n <;> simp [applyWsMessage, List.getElem?_map, hN]

/-- Claim C3: an inbound raw text on which envelope decoding fails (not
valid JSON, or an unknown `messageType`) makes the handler propagate the
failure — the `.unwrap()` panic, modelled as `none` — so no updated
state, sends or re-render are produced. -/
theorem inbound_decode_failure_propagates (st : ChatState) (input raw : String)
    (h : decodeWS raw = none) :
    Chat.update st input (.HandleMsg raw) = none := by
  simp [Chat.update, h]

/-- Witness for C3: a non-JSON text and an unknown-tag envelope both
fail to decode, and the handler propagates the failure on each. -/
theorem inbound_decode_failure_propagates_witness :
    decodeWS "not json" = none ∧
    decodeWS "\x7b\"messageType\":\"bogus\"\x7d" = none ∧
    Chat.update ⟨[], [], false⟩ "" (.HandleMsg "not json") = none ∧
    Chat.update ⟨[], [], false⟩ ""
      (.HandleMsg "\x7b\"messageType\":\"bogus\"\x7d") = none :=
  ⟨by decide, by decide,
   inbound_decode_failure_propagates ⟨[], [], false⟩ "" "not json" (by decide),
   inbound_decode_failure_propagates ⟨[], [], false⟩ ""
     "\x7b\"messageType\":\"bogus\"\x7d" (by decide)⟩

/-- Claim C4: submitting with an input whose trim is non-empty performs
exactly one outbound send — the serde encoding of the `Message` envelope
wrapping the raw untrimmed input, with `dataArray` null — clears the
input field, sets `is_typing` to `false`, and returns `true`
(re-render). -/
theorem submit_nonblank_sends (st : ChatState) (input : String)
    (h : (rustTrim input).isEmpty = false) :
    Chat.update st input .SubmitMessage =
      some ⟨{ st with is_typing := false }, "",
        [encodeWS ⟨.Message, none, some input⟩], true⟩ := by
  simp [Chat.update, h]

/-- Witness for C4 at input `"hello"` with `is_typing = true`: the one
sent text is spelled out, and both it and the claim's field ordering of
the same JSON object decode to the same envelope. -/
theorem submit_nonblank_sends_witness :
    (rustTrim "hello").isEmpty = false ∧
    Chat.update ⟨[], [], true⟩ "hello" .SubmitMessage =
      some ⟨⟨[], [], false⟩, "",
        ["\x7b\"messageType\":\"message\",\"dataArray\":null,\"data\":\"hello\"\x7d"], true⟩ ∧
    decodeWS "\x7b\"messageType\":\"message\",\"dataArray\":null,\"data\":\"hello\"\x7d" =
      some ⟨.Message, none, some "hello"⟩ ∧
    decodeWS "\x7b\"messageType\":\"message\",\"data\":\"hello\",\"dataArray\":null\x7d" =
      some ⟨.Message, none, some "hello"⟩ :=
  ⟨by decide,
   (submit_nonblank_sends ⟨[], [], true⟩ "hello" (by decide)).trans (by decide),
   by decide, by decide⟩

/-- Claim C5: submitting with an input that is empty after trimming is a
no-op: no send, no re-render, and the state and input field are
unchanged. -/
theorem submit_blank_noop (st : ChatState) (input : String)
    (h : (rustTrim input).isEmpty = true) :
    Chat.update st input .SubmitMessage = some ⟨st, input, [], false⟩ := by
  simp [Chat.update, h]

/-- Witness for C5 at the whitespace input of the spec's example. -/
theorem submit_blank_noop_witness :
    (rustTrim "   ").isEmpty = true ∧
    Chat.update ⟨[], [], true⟩ "   " .SubmitMessage =
      some ⟨⟨[], [], true⟩, "   ", [], false⟩ :=
  ⟨by decide, submit_blank_noop ⟨[], [], true⟩ "   " (by decide)⟩

/-- Claim C6: a local input change sets `is_typing` to whether the
trimmed text is non-empty and re-renders exactly when that value differs
from the stored flag; no send occurs and the input field is untouched. -/
theorem typing_changed_render_iff_boundary (st : ChatState) (input val : String) :
    Chat.update st input (.TypingChanged val) =
      some ⟨{ st with is_typing := !(rustTrim val).isEmpty }, input, [],
        st.is_typing != !(rustTrim val).isEmpty⟩ := by
  obtain ⟨us, ms, ty⟩ := st
  cases hv : (rustTrim val).isEmpty <;> cases ty <;> simp [Chat.update, hv]

/-- Claim C7: mounting the view yields empty state (`users = []`,
`messages = []`, `is_typing = false`) and exactly one outbound send, the
encoded `Register` envelope carrying the local user name with no
`dataArray`; the send result is discarded. -/
theorem create_initializes_and_registers (username : String) :
    Chat.create username =
      (⟨[], [], false⟩, [encodeWS ⟨.Register, none, some username⟩]) := rfl

/-- Claim C8: a message body is rendered as an image element with the
text as source exactly when the text ends with `.gif`, and as plain text
otherwise. -/
theorem message_body_gif_iff_image (m : MessageData) :
    (rustEndsWith m.message ".gif" = true → renderMessageBody m = .image m.message) ∧
    (rustEndsWith m.message ".gif" = false → renderMessageBody m = .text m.message) := by
  constructor <;> intro h <;> simp [renderMessageBody, h]

/-- Witness for C8 at the spec's examples `"cat.gif"` and `"hello"`. -/
theorem message_body_gif_iff_image_witness :
    renderMessageBody ⟨"a", "cat.gif"⟩ = .image "cat.gif" ∧
    renderMessageBody ⟨"b", "hello"⟩ = .text "hello" :=
  ⟨(message_body_gif_iff_image ⟨"a", "cat.gif"⟩).1 (by decide),
   (message_body_gif_iff_image ⟨"b", "hello"⟩).2 (by decide)⟩

/-- Claim C9: sender lookup in the render projection is total — a sender
absent from the roster resolves to the fallback profile with the
sender's name and empty avatar, and a sender found by `find?` resolves
to the found profile. -/
theorem sender_lookup_total (users : List UserProfile) (m : MessageData) :
    ((∀ u ∈ users, u.name ≠ m.«from») →
      resolveSender users m = ⟨m.«from», ""⟩) ∧
    (∀ u, users.find? (fun x => x.name == m.«from») = some u →
      resolveSender users m = u) := by
  constructor
  · intro h
    have hf : users.find? (fun x => x.name == m.«from») = none := by
      apply List.find?_eq_none.mpr
      intro x hx
      simpa using h x hx
    simp [resolveSender, hf]
  · intro u hu
    simp [resolveSender, hu]

/-- Witness for C9: with roster `[bob]`, a message from `alice` resolves
to the empty-avatar fallback and a message from `bob` to bob's
profile. -/
theorem sender_lookup_total_witness :
    resolveSender [⟨"bob", "av"⟩] ⟨"alice", "hi"⟩ = ⟨"alice", ""⟩ ∧
    resolveSender [⟨"bob", "av"⟩] ⟨"bob", "yo"⟩ = ⟨"bob", "av"⟩ :=
  ⟨(sender_lookup_total [⟨"bob", "av"⟩] ⟨"alice", "hi"⟩).1 (by decide),
   (sender_lookup_total [⟨"bob", "av"⟩] ⟨"bob", "yo"⟩).2 ⟨"bob", "av"⟩ (by decide)⟩

/-- Claim C10: an inbound `Users` envelope that decodes with no
`dataArray` (the member absent or `null`) is accepted, not rejected: the
roster is replaced by the empty sequence and a re-render is
triggered. -/
theorem users_envelope_missing_names_accepted (st : ChatState) (input raw : String)
    (d : Option String) (h : decodeWS raw = some ⟨.Users, none, d⟩) :
    Chat.update st input (.HandleMsg raw) =
      some ⟨{ st with users := [] }, input, [], true⟩ := by
  simp [Chat.update, h, applyWsMessage]

/-- Witness for C10: both the absent-member and the explicit-`null`
spellings decode successfully and empty a non-empty roster. -/
theorem users_envelope_missing_names_accepted_witness :
    decodeWS "\x7b\"messageType\":\"users\"\x7d" = some ⟨.Users, none, none⟩ ∧
    Chat.update ⟨[⟨"a", "b"⟩], [], false⟩ ""
      (.HandleMsg "\x7b\"messageType\":\"users\"\x7d") =
      some ⟨⟨[], [], false⟩, "", [], true⟩ ∧
    decodeWS "\x7b\"messageType\":\"users\",\"dataArray\":null\x7d" =
      some ⟨.Users, none, none⟩ ∧
    Chat.update ⟨[⟨"a", "b"⟩], [], false⟩ ""
      (.HandleMsg "\x7b\"messageType\":\"users\",\"dataArray\":null\x7d") =
      some ⟨⟨[], [], false⟩, "", [], true⟩ :=
  ⟨by decide,
   users_envelope_missing_names_accepted ⟨[⟨"a", "b"⟩], [], false⟩ ""
     "\x7b\"messageType\":\"users\"\x7d" none (by decide),
   by decide,
   users_envelope_missing_names_accepted ⟨[⟨"a", "b"⟩], [], false⟩ ""
     "\x7b\"messageType\":\"users\",\"dataArray\":null\x7d" none (by decide)⟩

/-- Claim C1, counterexample: for the concrete inbound `Message`
envelope whose payload `"nope"` is not valid `MessageData` JSON, the
handler leaves the state unchanged but returns `true` — a re-render IS
triggered — so the claim's "no re-render" on a malformed payload is
false on this code. -/
theorem inbound_message_invalid_payload_rerenders :
    Chat.update ⟨[], [], false⟩ ""
      (.HandleMsg "\x7b\"messageType\":\"message\",\"data\":\"nope\"\x7d") =
      some ⟨⟨[], [], false⟩, "", [], true⟩ ∧
    (Chat.update ⟨[], [], false⟩ ""
      (.HandleMsg "\x7b\"messageType\":\"message\",\"data\":\"nope\"\x7d")).map
        UpdateResult.render ≠ some false := by
  constructor
  · decide
  · decide

/-- Claim C1 as amended: for an inbound envelope that decodes with kind
`Message`, a payload that parses as a valid `MessageData` is appended to
`messages` (which grows by exactly that one element); an absent or
unparsable payload is silently discarded with no state change; in every
case the handler returns `true`, i.e. a re-render is triggered even for
a discarded message. -/
theorem inbound_message_append_or_discard (st : ChatState) (input raw : String)
    (m : WebSocketMessage) (hdec : decodeWS raw = some m)
    (hty : m.message_type = .Message) :
    (∀ d md, m.data = some d → messageDataFromStr d = some md →
      Chat.update st input (.HandleMsg raw) =
        some ⟨{ st with messages := st.messages ++ [md] }, input, [], true⟩) ∧
    (∀ d, m.data = some d → messageDataFromStr d = none →
      Chat.update st input (.HandleMsg raw) = some ⟨st, input, [], true⟩) ∧
    (m.data = none →
      Chat.update st input (.HandleMsg raw) = some ⟨st, input, [], true⟩) := by
  obtain ⟨mt, da, dt⟩ := m
  cases hty
  refine ⟨?_, ?_, ?_⟩
  · intro d md hd hmd
    cases hd
    simp [Chat.update, hdec, applyWsMessage, hmd]
  · intro d hd hmd
    cases hd
    simp [Chat.update, hdec, applyWsMessage, hmd]
  · intro hd
    cases hd
    simp [Chat.update, hdec, applyWsMessage]

/-- Witness for the amended C1: a concrete valid payload is appended to
a non-empty log and re-renders. -/
theorem inbound_message_append_or_discard_witness :
    decodeWS "\x7b\"messageType\":\"message\",\"data\":\"\x7b\\\"from\\\":\\\"alice\\\",\\\"message\\\":\\\"hi\\\"\x7d\"\x7d" =
      some ⟨.Message, none, some "\x7b\"from\":\"alice\",\"message\":\"hi\"\x7d"⟩ ∧
    messageDataFromStr "\x7b\"from\":\"alice\",\"message\":\"hi\"\x7d" =
      some ⟨"alice", "hi"⟩ ∧
    Chat.update ⟨[], [⟨"bob", "yo"⟩], false⟩ ""
      (.HandleMsg "\x7b\"messageType\":\"message\",\"data\":\"\x7b\\\"from\\\":\\\"alice\\\",\\\"message\\\":\\\"hi\\\"\x7d\"\x7d") =
      some ⟨⟨[], [⟨"bob", "yo"⟩, ⟨"alice", "hi"⟩], false⟩, "", [], true⟩ :=
  ⟨by decide, by decide,
   (inbound_message_append_or_discard ⟨[], [⟨"bob", "yo"⟩], false⟩ ""
       "\x7b\"messageType\":\"message\",\"data\":\"\x7b\\\"from\\\":\\\"alice\\\",\\\"message\\\":\\\"hi\\\"\x7d\"\x7d"
       ⟨.Message, none, some "\x7b\"from\":\"alice\",\"message\":\"hi\"\x7d"⟩
       (by decide) rfl).1
     "\x7b\"from\":\"alice\",\"message\":\"hi\"\x7d" ⟨"alice", "hi"⟩ rfl (by decide)⟩
